import Mathlib

/-!
Verification of the authentication-token lifecycle manager and the
one-time verification-code (OTP) service of this repository.

The Go source is shallowly embedded:
* the shared Redis cache becomes an explicit association list from keys to
  `(value, absolute expiry time)`, with per-key injected read/write faults
  standing for cache unavailability;
* every cache-touching operation threads the cache state explicitly and
  returns `Except` for fallible calls;
* time is an explicit `Nat` parameter (`now`);
* `uuid.New()` is modelled by a counter-backed supply of ids, capturing the
  uniqueness-per-issuance guarantee the code relies on.

Two variants of the SMS client are embedded: the `arch3` client
(`internal/integration/sms`, volcengine package) and the `archv2` client
(`VolcengineClient`), because they genuinely differ in behaviour.
-/

deriving instance DecidableEq for Except

namespace Arch

/-! ### Cache keys

The Go code builds string keys with `fmt.Sprintf` using pairwise distinct
literal prefixes (`sms:code:`, `sms:minute:`, `sms:day:`, `sms:verify_fail:`,
`token:blacklist:`, `sms:logical:`).  Since that naming is injective, keys
are modelled as an inductive type, one constructor per format. -/

inductive Key
  /-- arch3 `sms:code:{type}:{phone}` -/
  | code (t p : String)
  /-- arch3 `sms:minute:{type}:{phone}` -/
  | minute (t p : String)
  /-- arch3 `sms:day:{type}:{phone}` -/
  | day (t p : String)
  /-- arch3 `sms:verify_fail:{type}:{phone}` -/
  | verifyFail (t p : String)
  /-- jwt `token:blacklist:{jti}` -/
  | blacklist (jti : String)
  /-- archv2 `sms:logical:{type}:{phone}` (known sms type branch of `getRedisKey`) -/
  | v2logical (t p : String)
  /-- archv2 `sms:logical:{phone}` (unknown sms type branch of `getRedisKey`) -/
  | v2logicalP (p : String)
  /-- archv2 minute-counter key (known sms type branch) -/
  | v2minute (t p : String)
  /-- archv2 minute-counter key (unknown sms type branch) -/
  | v2minuteP (p : String)
  /-- archv2 day-counter key (known sms type branch) -/
  | v2day (t p : String)
  /-- archv2 day-counter key (unknown sms type branch) -/
  | v2dayP (p : String)
deriving DecidableEq

/-- A Redis value: either a plain string (codes, the blacklist marker `"1"`)
or an integer as maintained by `INCR` (send / fail counters). -/
inductive Val
  | str (s : String)
  | num (n : Nat)
deriving DecidableEq

/-- The shared Redis cache.  `store` maps a key to its value and absolute
expiry time (set time + TTL).  `failedReadKeys` / `failedWriteKeys` inject
cache unavailability on particular keys, modelling the `error` returns of
the go-redis client distinct from `redis.Nil`. -/
structure Redis where
  store : List (Key × Val × Nat)
  failedReadKeys : List Key
  failedWriteKeys : List Key
deriving DecidableEq

def Redis.findEntry (r : Redis) (k : Key) : Option (Key × Val × Nat) :=
  r.store.find? (fun e => e.1 == k)

/-- Primitive `GET`: the stored value, if present and not yet expired. -/
def Redis.lookup (r : Redis) (now : Nat) (k : Key) : Option Val :=
  match r.findEntry k with
  | some e => if now < e.2.2 then some e.2.1 else none
  | none => none

def Redis.readOk (r : Redis) (k : Key) : Bool := !(r.failedReadKeys.contains k)

def Redis.writeOk (r : Redis) (k : Key) : Bool := !(r.failedWriteKeys.contains k)

/-- Operation `GET` with failure injection: `.ok none` is `redis.Nil`, `.error ()` is
any other client error. -/
def Redis.get (r : Redis) (now : Nat) (k : Key) : Except Unit (Option Val) :=
  if r.readOk k then .ok (r.lookup now k) else .error ()

/-- Unconditional write of `(k, v)` expiring at `exp`. -/
def Redis.rawSet (r : Redis) (k : Key) (v : Val) (exp : Nat) : Redis :=
  { r with store := (k, v, exp) :: r.store.filter (fun e => e.1 != k) }

/-- Unconditional removal of `k`. -/
def Redis.rawDel (r : Redis) (k : Key) : Redis :=
  { r with store := r.store.filter (fun e => e.1 != k) }

/-- Operation `SET key value ttl`. -/
def Redis.set (r : Redis) (now : Nat) (k : Key) (v : Val) (ttl : Nat) :
    Except Unit Redis :=
  if r.writeOk k then .ok (r.rawSet k v (now + ttl)) else .error ()

/-- Operation `DEL key`. -/
def Redis.del (r : Redis) (k : Key) : Except Unit Redis :=
  if r.writeOk k then .ok (r.rawDel k) else .error ()

/-- Reading a value as an integer (`.Int()` in go-redis): `redis.Nil` is
reported as 0 by all callers in the source, a non-integer value is a
conversion error. -/
def Redis.intOf : Option Val → Except Unit Nat
  | none => .ok 0
  | some (.num n) => .ok n
  | some (.str _) => .error ()

/-- The pipelined `INCR key; EXPIRE key ttl` pair used by the repositories. -/
def Redis.incrExpire (r : Redis) (now : Nat) (k : Key) (ttl : Nat) :
    Except Unit Redis :=
  if r.writeOk k then
    match Redis.intOf (r.lookup now k) with
    | .error _ => .error ()
    | .ok cur => .ok (r.rawSet k (.num (cur + 1)) (now + ttl))
  else .error ()

/-! ### JWT token manager (pkg/jwt, `Manager`) -/

/-- The signing algorithm of a token.  The manager signs with HS256 and its
keyfunc rejects any non-HMAC method. -/
inductive Alg
  | HS256
  | RS256
  | none_
deriving DecidableEq

/-- Struct `Claims`: `UserID`, `TokenType` (`"access"` or `"refresh"`), and the
embedded registered claims `ID` (jti), `IssuedAt`, `ExpiresAt`. -/
structure Claims where
  userID : String
  tokenType : String
  id : String
  issuedAt : Nat
  expiresAt : Nat
deriving DecidableEq

/-- A token string, abstracted to its decoded content: either a well-formed
token carrying claims, an algorithm tag and the key it was signed with, or
an undecodable string. -/
inductive Token
  | signed (c : Claims) (alg : Alg) (key : String)
  | malformed
deriving DecidableEq

def Token.claims? : Token → Option Claims
  | .signed c _ _ => some c
  | .malformed => none

structure TokenPair where
  accessToken : Token
  refreshToken : Token
deriving DecidableEq

structure Manager where
  secret : String
  accessExpire : Nat
  refreshExpire : Nat
deriving DecidableEq

def TokenTypeAccess : String := "access"

def TokenTypeRefresh : String := "refresh"

/-- Call `uuid.New().String()`, modelled as a counter-backed supply: the n-th
call returns `uuidString n`.  The function is injective, which captures the
per-issuance uniqueness the code relies on. -/
def uuidString (n : Nat) : String := String.mk (List.replicate n 'u')

/-- Method `Manager.GenerateTokenPair`: allocates two fresh jti, stamps
issued-at = now, computes expiries from the configured durations, and signs
both tokens with HS256.  Returns the pair and the advanced uuid counter. -/
def Manager.GenerateTokenPair (m : Manager) (now uuidCtr : Nat) (userID : String) :
    TokenPair × Nat :=
  let accessJTI := uuidString uuidCtr
  let accessClaims : Claims :=
    { userID := userID, tokenType := TokenTypeAccess, id := accessJTI,
      issuedAt := now, expiresAt := now + m.accessExpire }
  let refreshJTI := uuidString (uuidCtr + 1)
  let refreshClaims : Claims :=
    { userID := userID, tokenType := TokenTypeRefresh, id := refreshJTI,
      issuedAt := now, expiresAt := now + m.refreshExpire }
  (⟨Token.signed accessClaims .HS256 m.secret, Token.signed refreshClaims .HS256 m.secret⟩,
    uuidCtr + 2)

inductive ParseErr
  /-- cannot decode, non-HMAC signing method, or signature mismatch -/
  | malformedOrBadSig
  /-- time `now` is past the expiry claim -/
  | expired
  /-- error `expected %s token, got %s` -/
  | wrongType (expected got : String)
deriving DecidableEq

/-- Method `Manager.ParseToken`: verify decoding, signing method (HMAC only),
signature, expiry; then check the token-type claim against `expectedType`. -/
def Manager.ParseToken (m : Manager) (now : Nat) (t : Token) (expectedType : String) :
    Except ParseErr Claims :=
  match t with
  | .malformed => .error .malformedOrBadSig
  | .signed c alg key =>
    if alg ≠ Alg.HS256 then .error .malformedOrBadSig
    else if key ≠ m.secret then .error .malformedOrBadSig
    else if c.expiresAt < now then .error .expired
    else if c.tokenType ≠ expectedType then .error (.wrongType expectedType c.tokenType)
    else .ok c

/-- Method `Manager.IsTokenBlacklisted`: get on the blacklist key; `redis.Nil`
means not blacklisted, any other error propagates to the caller. -/
def Manager.IsTokenBlacklisted (m : Manager) (r : Redis) (now : Nat) (jti : String) :
    Except Unit Bool :=
  match r.get now (Key.blacklist jti) with
  | .error _ => .error ()
  | .ok none => .ok false
  | .ok (some v) => .ok (v == Val.str "1")

/-- Method `Manager.AddTokenToBlacklist`: set the blacklist key to `"1"` with the given expiration. -/
def Manager.AddTokenToBlacklist (m : Manager) (r : Redis) (now : Nat) (jti : String)
    (expiration : Nat) : Except Unit Redis :=
  r.set now (Key.blacklist jti) (.str "1") expiration

/-- Method `Manager.RevokeRefreshToken`: blacklists the jti with the full
configured refresh-token lifetime as TTL. -/
def Manager.RevokeRefreshToken (m : Manager) (r : Redis) (now : Nat) (jti : String) :
    Except Unit Redis :=
  m.AddTokenToBlacklist r now jti m.refreshExpire

/-! ### `service.RefreshToken` (user service) -/

/-- The `response` error codes the service maps failures to. -/
inductive RespCode
  | tokenInvalid
  | cacheError
  | userNotFound
  | internal
deriving DecidableEq

/-- Observable side-effect events of one `RefreshToken` call, in order. -/
inductive RTEvent
  /-- the old refresh token's jti was submitted to the blacklist -/
  | revoke (jti : String)
  /-- a fresh token pair was generated for the subject -/
  | mint (userID : String)
deriving DecidableEq

structure RTResult where
  result : Except RespCode TokenPair
  redis : Redis
  uuidCtr : Nat
  events : List RTEvent
deriving DecidableEq

/-- Function `service.RefreshToken`: parse as refresh kind; check the blacklist
(cache failure → `CodeCacheError`, hit → `CodeTokenInvalid`); confirm the
subject exists; revoke the old jti (failure → `CodeCacheError`, aborting);
only then generate a fresh pair.  `userExists` stands for the repository's
`FindByUserID`. -/
def RefreshToken (m : Manager) (userExists : String → Bool) (r : Redis)
    (now uuidCtr : Nat) (refreshTok : Token) : RTResult :=
  match m.ParseToken now refreshTok TokenTypeRefresh with
  | .error _ => ⟨.error .tokenInvalid, r, uuidCtr, []⟩
  | .ok claims =>
    match m.IsTokenBlacklisted r now claims.id with
    | .error _ => ⟨.error .cacheError, r, uuidCtr, []⟩
    | .ok true => ⟨.error .tokenInvalid, r, uuidCtr, []⟩
    | .ok false =>
      if userExists claims.userID then
        match m.RevokeRefreshToken r now claims.id with
        | .error _ => ⟨.error .cacheError, r, uuidCtr, [.revoke claims.id]⟩
        | .ok r' =>
          let gp := m.GenerateTokenPair now uuidCtr claims.userID
          ⟨.ok gp.1, r', gp.2, [.revoke claims.id, .mint claims.userID]⟩
      else ⟨.error .userNotFound, r, uuidCtr, []⟩

/-! ### arch3 SMS verification-code service
(`internal/integration/sms` volcengine client + `CacheRepository`) -/

def codeTTL : Nat := 300

def maxPerMin : Nat := 1

def maxPerDay : Nat := 6

def maxVerifyFails : Nat := 5

def verifyFailTTL : Nat := 3600

/-- The sms error values (`errors.go`, aliases of the service-layer
errors); `cacheFailure` stands for a raw redis error returned as-is. -/
inductive SMSErr
  | tooFrequent
  | dailyLimit
  | sendFailed
  | templateNotFound
  | codeInvalid
  | verifyTooMany
  | cacheFailure
deriving DecidableEq

/-- Method `CacheRepository.StoreCode`. -/
def StoreCode (r : Redis) (now : Nat) (t p code : String) (ttl : Nat) :
    Except SMSErr Redis :=
  match r.set now (Key.code t p) (.str code) ttl with
  | .error _ => .error .cacheFailure
  | .ok r' => .ok r'

/-- Method `CacheRepository.GetCode`: `redis.Nil` is mapped to `ErrCodeInvalid`,
other errors propagate. -/
def GetCode (r : Redis) (now : Nat) (t p : String) : Except SMSErr String :=
  match r.get now (Key.code t p) with
  | .error _ => .error .cacheFailure
  | .ok none => .error .codeInvalid
  | .ok (some (.str s)) => .ok s
  | .ok (some (.num n)) => .ok (toString n)

/-- Method `CacheRepository.DeleteCode`. -/
def DeleteCode (r : Redis) (t p : String) : Except SMSErr Redis :=
  match r.del (Key.code t p) with
  | .error _ => .error .cacheFailure
  | .ok r' => .ok r'

/-- Method `CacheRepository.GetSendCount`: reads both window counters;
`redis.Nil` counts as 0, other errors propagate. -/
def GetSendCount (r : Redis) (now : Nat) (t p : String) :
    Except SMSErr (Nat × Nat) :=
  match r.get now (Key.minute t p) with
  | .error _ => .error .cacheFailure
  | .ok v₁ =>
    match Redis.intOf v₁ with
    | .error _ => .error .cacheFailure
    | .ok minuteCount =>
      match r.get now (Key.day t p) with
      | .error _ => .error .cacheFailure
      | .ok v₂ =>
        match Redis.intOf v₂ with
        | .error _ => .error .cacheFailure
        | .ok dayCount => .ok (minuteCount, dayCount)

/-- Method `CacheRepository.IncrSendCount`: pipelined INCR+EXPIRE on the minute
(60 s) and day (86400 s) counters. -/
def IncrSendCount (r : Redis) (now : Nat) (t p : String) : Except SMSErr Redis :=
  match r.incrExpire now (Key.minute t p) 60 with
  | .error _ => .error .cacheFailure
  | .ok r₁ =>
    match r₁.incrExpire now (Key.day t p) 86400 with
    | .error _ => .error .cacheFailure
    | .ok r₂ => .ok r₂

/-- Method `CacheRepository.GetVerifyFailCount`: `redis.Nil` → 0, other errors
propagate. -/
def GetVerifyFailCount (r : Redis) (now : Nat) (t p : String) : Except SMSErr Nat :=
  match r.get now (Key.verifyFail t p) with
  | .error _ => .error .cacheFailure
  | .ok v =>
    match Redis.intOf v with
    | .error _ => .error .cacheFailure
    | .ok n => .ok n

/-- Method `CacheRepository.IncrVerifyFailCount`: INCR+EXPIRE (1 hour). -/
def IncrVerifyFailCount (r : Redis) (now : Nat) (t p : String) : Except SMSErr Redis :=
  match r.incrExpire now (Key.verifyFail t p) verifyFailTTL with
  | .error _ => .error .cacheFailure
  | .ok r' => .ok r'

/-- Method `CacheRepository.ResetVerifyFailCount`: DEL. -/
def ResetVerifyFailCount (r : Redis) (t p : String) : Except SMSErr Redis :=
  match r.del (Key.verifyFail t p) with
  | .error _ => .error .cacheFailure
  | .ok r' => .ok r'

/-- External collaborators of `Client.Send`: the configured template map,
whether the volcengine delivery API call succeeds, and the value produced
by `generateCode` (crypto-random in the source). -/
structure SMSEnv where
  templates : String → Option String
  gatewayOk : Bool
  freshCode : String

/-- arch3 `Client.checkSendLimit`. -/
def checkSendLimit (r : Redis) (now : Nat) (t p : String) : Except SMSErr Unit :=
  match GetSendCount r now t p with
  | .error e => .error e
  | .ok counts =>
    if maxPerMin ≤ counts.1 then .error .tooFrequent
    else if maxPerDay ≤ counts.2 then .error .dailyLimit
    else .ok ()

/-- arch3 `Client.Send`: template lookup first (before any state
mutation), then rate limits, store the fresh code (TTL 300 s), call the
gateway — deleting the stored code (best effort) and failing `SendFailed`
on delivery failure — and on success best-effort increment the send
counters and reset the fail counter. -/
def Send (env : SMSEnv) (r : Redis) (now : Nat) (t p : String) :
    Except SMSErr Unit × Redis :=
  match env.templates t with
  | none => (.error .templateNotFound, r)
  | some _ =>
    match checkSendLimit r now t p with
    | .error e => (.error e, r)
    | .ok _ =>
      match StoreCode r now t p env.freshCode codeTTL with
      | .error e => (.error e, r)
      | .ok r₁ =>
        if env.gatewayOk then
          let r₂ := match IncrSendCount r₁ now t p with
            | .ok x => x
            | .error _ => r₁
          let r₃ := match ResetVerifyFailCount r₂ t p with
            | .ok x => x
            | .error _ => r₂
          (.ok (), r₃)
        else
          let r₂ := match DeleteCode r₁ t p with
            | .ok x => x
            | .error _ => r₁
          (.error .sendFailed, r₂)

/-- arch3 `Client.Verify`: fail counter first (≥ 5 → `VerifyTooMany`),
then read the stored code (any error → `CodeInvalid`), compare (mismatch →
best-effort fail-counter increment and `CodeInvalid`), and on match
best-effort delete the code and reset the fail counter. -/
def Verify (r : Redis) (now : Nat) (t p candidate : String) :
    Except SMSErr Unit × Redis :=
  match GetVerifyFailCount r now t p with
  | .error e => (.error e, r)
  | .ok failCount =>
    if maxVerifyFails ≤ failCount then (.error .verifyTooMany, r)
    else
      match GetCode r now t p with
      | .error _ => (.error .codeInvalid, r)
      | .ok storedCode =>
        if storedCode ≠ candidate then
          let r₁ := match IncrVerifyFailCount r now t p with
            | .ok x => x
            | .error _ => r
          (.error .codeInvalid, r₁)
        else
          let r₁ := match DeleteCode r t p with
            | .ok x => x
            | .error _ => r
          let r₂ := match ResetVerifyFailCount r₁ t p with
            | .ok x => x
            | .error _ => r₁
          (.ok (), r₂)

/-! ### archv2 SMS client (`VolcengineClient`) -/

namespace V2

/-- The type names handled by the first branch of `getRedisKey`. -/
def knownType (t : String) : Bool :=
  t == "register" || t == "login" || t == "forget"

/-- Function `getRedisKey(logicalKeyFormat, phone, smsType)`: includes the sms type
for the known types, and only the phone otherwise. -/
def logicalKey (t p : String) : Key :=
  if knownType t then .v2logical t p else .v2logicalP p

def minuteKey (t p : String) : Key :=
  if knownType t then .v2minute t p else .v2minuteP p

def dayKey (t p : String) : Key :=
  if knownType t then .v2day t p else .v2dayP p

/-- archv2's ad-hoc `fmt.Errorf` errors, one constructor per distinct
error value the client can return. -/
inductive Err
  /-- 一分钟内最多发送1次 -/
  | tooFrequent
  /-- 一天最多发送6次 -/
  | dailyLimit
  /-- a raw redis error returned as-is -/
  | cacheFailure
  /-- unsupported sms type -/
  | unsupportedType
  /-- 发送短信失败 -/
  | sendFailed
  /-- 验证码已过期或不存在 -/
  | codeMissing
  /-- 获取验证码失败 -/
  | getCodeFailed
  /-- 验证码不正确 -/
  | codeMismatch
deriving DecidableEq

/-- archv2 `checkSendLimit`: minute counter read and checked before the
day counter is read. -/
def checkSendLimit (r : Redis) (now : Nat) (t p : String) : Except Err Unit :=
  match r.get now (minuteKey t p) with
  | .error _ => .error .cacheFailure
  | .ok v₁ =>
    match Redis.intOf v₁ with
    | .error _ => .error .cacheFailure
    | .ok minuteCount =>
      if 1 ≤ minuteCount then .error .tooFrequent
      else
        match r.get now (dayKey t p) with
        | .error _ => .error .cacheFailure
        | .ok v₂ =>
          match Redis.intOf v₂ with
          | .error _ => .error .cacheFailure
          | .ok dayCount =>
            if 6 ≤ dayCount then .error .dailyLimit
            else .ok ()

/-- archv2 `recordSend`: pipelined INCR+EXPIRE on both counters. -/
def recordSend (r : Redis) (now : Nat) (t p : String) : Except Err Redis :=
  match r.incrExpire now (minuteKey t p) 60 with
  | .error _ => .error .cacheFailure
  | .ok r₁ =>
    match r₁.incrExpire now (dayKey t p) 86400 with
    | .error _ => .error .cacheFailure
    | .ok r₂ => .ok r₂

/-- archv2 `Send`: rate limits, then store the code (TTL 300 s), then the
template lookup (after the store — a missing template leaves the code
stored), then the gateway call (on failure the stored code is not
deleted), then best-effort counter increments. -/
def Send (templates : String → Option String) (gatewayOk : Bool) (code : String)
    (r : Redis) (now : Nat) (t p : String) : Except Err Unit × Redis :=
  match checkSendLimit r now t p with
  | .error e => (.error e, r)
  | .ok _ =>
    match r.set now (logicalKey t p) (.str code) 300 with
    | .error _ => (.error .cacheFailure, r)
    | .ok r₁ =>
      match templates t with
      | none => (.error .unsupportedType, r₁)
      | some _ =>
        if gatewayOk then
          let r₂ := match recordSend r₁ now t p with
            | .ok x => x
            | .error _ => r₁
          (.ok (), r₂)
        else (.error .sendFailed, r₁)

/-- archv2 `Verify`: the test code `"777777"` is accepted unconditionally
before any redis access; otherwise read the stored code (`redis.Nil` →
`codeMissing`, other error → `getCodeFailed`), compare (mismatch →
`codeMismatch`), and on match best-effort delete the code.  There is no
fail counter in this variant. -/
def Verify (r : Redis) (now : Nat) (t p code : String) : Except Err Unit × Redis :=
  if code = "777777" then (.ok (), r)
  else
    match r.get now (logicalKey t p) with
    | .error _ => (.error .getCodeFailed, r)
    | .ok none => (.error .codeMissing, r)
    | .ok (some storedVal) =>
      let storedCode := match storedVal with
        | .str s => s
        | .num n => toString n
      if storedCode ≠ code then (.error .codeMismatch, r)
      else
        let r₁ := match r.del (logicalKey t p) with
          | .ok x => x
          | .error _ => r
        (.ok (), r₁)

end V2

/-! ### Helper lemmas about the cache model -/

theorem find?_filter_of_ne (l : List (Key × Val × Nat)) {k k' : Key} (h : k' ≠ k) :
    (l.filter (fun e => e.1 != k)).find? (fun e => e.1 == k')
      = l.find? (fun e => e.1 == k') := by
  induction l with
  | nil => rfl
  | cons e tl ih =>
    by_cases he : e.1 = k'
    · have h1 : (e.1 == k') = true := by simp [he]
      have h2 : (e.1 != k) = true := by simp [bne_iff_ne, he]; exact h
      simp [List.filter_cons, h2, List.find?_cons, h1]
    · have h1 : (e.1 == k') = false := by simp [he]
      by_cases h2 : e.1 = k
      · have h3 : (e.1 != k) = false := by simp [bne, h2]
        simp [List.filter_cons, h3, List.find?_cons, h1, ih]
      · have h3 : (e.1 != k) = true := by simp [bne_iff_ne]; exact h2
        simp [List.filter_cons, h3, List.find?_cons, h1, ih]

theorem find?_filter_self (l : List (Key × Val × Nat)) (k : Key) :
    (l.filter (fun e => e.1 != k)).find? (fun e => e.1 == k) = none := by
  induction l with
  | nil => rfl
  | cons e tl ih =>
    by_cases h2 : e.1 = k
    · have h3 : (e.1 != k) = false := by simp [bne, h2]
      simp [List.filter_cons, h3, ih]
    · have h3 : (e.1 != k) = true := by simp [bne_iff_ne]; exact h2
      have h1 : (e.1 == k) = false := by simp [h2]
      simp [List.filter_cons, h3, List.find?_cons, h1, ih]

@[simp] theorem readOk_rawSet (r : Redis) (k : Key) (v : Val) (exp : Nat) (k' : Key) :
    (r.rawSet k v exp).readOk k' = r.readOk k' := rfl

@[simp] theorem writeOk_rawSet (r : Redis) (k : Key) (v : Val) (exp : Nat) (k' : Key) :
    (r.rawSet k v exp).writeOk k' = r.writeOk k' := rfl

@[simp] theorem readOk_rawDel (r : Redis) (k k' : Key) :
    (r.rawDel k).readOk k' = r.readOk k' := rfl

@[simp] theorem writeOk_rawDel (r : Redis) (k k' : Key) :
    (r.rawDel k).writeOk k' = r.writeOk k' := rfl

theorem lookup_rawSet_self (r : Redis) (now : Nat) (k : Key) (v : Val) (exp : Nat) :
    (r.rawSet k v exp).lookup now k = if now < exp then some v else none := by
  simp [Redis.lookup, Redis.findEntry, Redis.rawSet, List.find?_cons]

theorem lookup_rawSet_ne (r : Redis) (now : Nat) {k k' : Key} (v : Val) (exp : Nat)
    (h : k' ≠ k) : (r.rawSet k v exp).lookup now k' = r.lookup now k' := by
  have h1 : (k == k') = false := by simp; exact fun hh => h hh.symm
  simp [Redis.lookup, Redis.findEntry, Redis.rawSet, List.find?_cons, h1,
    find?_filter_of_ne _ h]

theorem lookup_rawDel_self (r : Redis) (now : Nat) (k : Key) :
    (r.rawDel k).lookup now k = none := by
  simp only [Redis.lookup, Redis.findEntry, Redis.rawDel]
  rw [find?_filter_self]

theorem lookup_rawDel_ne (r : Redis) (now : Nat) {k k' : Key} (h : k' ≠ k) :
    (r.rawDel k).lookup now k' = r.lookup now k' := by
  simp [Redis.lookup, Redis.findEntry, Redis.rawDel, find?_filter_of_ne _ h]

/-! ### Claim theorems -/

/-- C10: In the archv2 variant, `Verify` returns success for the candidate
code `"777777"` for every phone and every purpose, regardless of the cache
contents, and the returned state is the unchanged input state — no counter
or stored code is consulted or mutated. -/
theorem v2_verify_test_code_bypass (r : Redis) (now : Nat) (t p : String) :
    V2.Verify r now t p "777777" = (.ok (), r) := by
  simp [V2.Verify]

/-- C7: `GenerateTokenPair` returns an access and a refresh token carrying
distinct unique ids, with kind fields `"access"` and `"refresh"`
respectively, and `ParseToken` applied to the returned access token with
expected kind `"refresh"` fails with the wrong-kind error. -/
theorem generateTokenPair_distinct_ids_correct_kinds
    (m : Manager) (now ctr : Nat) (uid : String) :
    ∃ ca cr,
      ((m.GenerateTokenPair now ctr uid).1.accessToken).claims? = some ca ∧
      ((m.GenerateTokenPair now ctr uid).1.refreshToken).claims? = some cr ∧
      ca.id ≠ cr.id ∧
      ca.tokenType = TokenTypeAccess ∧
      cr.tokenType = TokenTypeRefresh ∧
      m.ParseToken now ((m.GenerateTokenPair now ctr uid).1.accessToken) TokenTypeRefresh
        = .error (.wrongType TokenTypeRefresh TokenTypeAccess) := by
  refine ⟨_, _, rfl, rfl, ?_, rfl, rfl, ?_⟩
  · intro h
    have hlen := congrArg (fun s => s.data.length) h
    simp only [Manager.GenerateTokenPair, uuidString, List.length_replicate] at hlen
    omega
  · have hexp : ¬ (now + m.accessExpire < now) := by omega
    have hne : TokenTypeAccess ≠ TokenTypeRefresh := by decide
    simp [Manager.GenerateTokenPair, Manager.ParseToken, hexp, hne]

/-- C8 (amended): in the arch3 variant, a missing delivery template makes
`Send` fail with `TemplateNotFound` and return the cache state unchanged —
no code stored, no counter touched. -/
theorem arch3_send_template_missing_no_mutation
    (env : SMSEnv) (r : Redis) (now : Nat) (t p : String)
    (h : env.templates t = none) :
    Send env r now t p = (.error .templateNotFound, r) := by
  simp [Send, h]

/-- C8 witness: the amended theorem applied at a concrete input. -/
theorem arch3_send_template_missing_no_mutation_witness :
    Send ⟨fun _ => none, true, "482913"⟩ ⟨[], [], []⟩ 0 "login" "13800000000"
      = (.error .templateNotFound, ⟨[], [], []⟩) :=
  arch3_send_template_missing_no_mutation ⟨fun _ => none, true, "482913"⟩
    ⟨[], [], []⟩ 0 "login" "13800000000" rfl

/-- C8 counterexample: in the archv2 variant, `Send` with no configured
template for the purpose stores the code *before* discovering the missing
template, so it fails only after a state mutation and leaves the code in
the cache. -/
theorem v2_send_template_missing_stores_code :
    (V2.Send (fun _ => none) true "482913" ⟨[], [], []⟩ 0 "login" "13800000000").1
        = .error V2.Err.unsupportedType ∧
    (V2.Send (fun _ => none) true "482913" ⟨[], [], []⟩ 0 "login" "13800000000").2.lookup 0
        (V2.logicalKey "login" "13800000000") = some (Val.str "482913") := by
  decide

/-- C6 counterexample: a `RefreshToken` run at time 10 on a refresh token
issued at 0 with expiry 100 (configured refresh lifetime 100) writes a
blacklist entry expiring at 110: its TTL is 100, which exceeds the
remaining validity 100 − 10 = 90, and the entry outlives the token. -/
theorem revocation_ttl_exceeds_remaining_validity :
    (RefreshToken ⟨"s", 10, 100⟩ (fun _ => true) ⟨[], [], []⟩ 10 0
        (Token.signed ⟨"u", "refresh", "j", 0, 100⟩ Alg.HS256 "s")).redis.findEntry
        (Key.blacklist "j") = some (Key.blacklist "j", Val.str "1", 110) ∧
    (RefreshToken ⟨"s", 10, 100⟩ (fun _ => true) ⟨[], [], []⟩ 10 0
        (Token.signed ⟨"u", "refresh", "j", 0, 100⟩ Alg.HS256 "s")).result
      = .ok ((Manager.GenerateTokenPair ⟨"s", 10, 100⟩ 10 0 "u").1) ∧
    ¬ (110 - 10 ≤ (100 : Nat) - 10) := by
  decide

/-- C6 (amended): every blacklist entry written by `RevokeRefreshToken`
has TTL equal to the full configured refresh-token lifetime; for a
manager-minted token (expiry ≤ issued-at + refresh lifetime, issued before
the revocation) that TTL is at least — but possibly more than — the
token's remaining validity. -/
theorem revocation_ttl_full_refresh_lifetime
    (m : Manager) (r : Redis) (now : Nat) (jti : String) (r' : Redis) (c : Claims)
    (h : m.RevokeRefreshToken r now jti = .ok r')
    (hc : c.expiresAt ≤ c.issuedAt + m.refreshExpire)
    (hi : c.issuedAt ≤ now) :
    r'.findEntry (Key.blacklist jti)
        = some (Key.blacklist jti, Val.str "1", now + m.refreshExpire) ∧
    c.expiresAt - now ≤ m.refreshExpire := by
  refine ⟨?_, by omega⟩
  unfold Manager.RevokeRefreshToken Manager.AddTokenToBlacklist Redis.set at h
  by_cases hw : r.writeOk (Key.blacklist jti) = true
  · rw [hw] at h
    simp at h
    rw [← h]
    simp [Redis.rawSet, Redis.findEntry, List.find?_cons]
  · simp [hw] at h

/-- C6 witness: the amended theorem applied at a concrete input. -/
theorem revocation_ttl_full_refresh_lifetime_witness :
    (⟨[(Key.blacklist "j", Val.str "1", 110)], [], []⟩ : Redis).findEntry
        (Key.blacklist "j") = some (Key.blacklist "j", Val.str "1", 110) ∧
    (100 : Nat) - 10 ≤ 100 :=
  revocation_ttl_full_refresh_lifetime ⟨"s", 10, 100⟩ ⟨[], [], []⟩ 10 "j"
    ⟨[(Key.blacklist "j", Val.str "1", 110)], [], []⟩
    ⟨"u", "refresh", "j", 0, 100⟩ (by decide) (by decide) (by decide)

/-- C9: when the cache read behind the blacklist check fails (for a reason
other than the key being absent), `IsTokenBlacklisted` propagates the
error instead of answering `false`, and `RefreshToken` accordingly fails
with the `CacheError` system code. -/
theorem blacklist_check_failure_propagates
    (m : Manager) (ue : String → Bool) (r : Redis) (now ctr : Nat)
    (tok : Token) (c : Claims)
    (hfail : r.readOk (Key.blacklist c.id) = false)
    (hparse : m.ParseToken now tok TokenTypeRefresh = .ok c) :
    m.IsTokenBlacklisted r now c.id = .error () ∧
    (RefreshToken m ue r now ctr tok).result = .error .cacheError := by
  have hbl : m.IsTokenBlacklisted r now c.id = .error () := by
    simp [Manager.IsTokenBlacklisted, Redis.get, hfail]
  refine ⟨hbl, ?_⟩
  simp [RefreshToken, hparse, hbl]

/-- C9 witness: the theorem applied at a concrete input. -/
theorem blacklist_check_failure_propagates_witness :
    Manager.IsTokenBlacklisted ⟨"s", 10, 100⟩ ⟨[], [Key.blacklist "j"], []⟩ 0 "j"
        = .error () ∧
    (RefreshToken ⟨"s", 10, 100⟩ (fun _ => true) ⟨[], [Key.blacklist "j"], []⟩ 0 0
        (Token.signed ⟨"u", "refresh", "j", 0, 100⟩ Alg.HS256 "s")).result
      = .error .cacheError :=
  blacklist_check_failure_propagates ⟨"s", 10, 100⟩ (fun _ => true)
    ⟨[], [Key.blacklist "j"], []⟩ 0 0
    (Token.signed ⟨"u", "refresh", "j", 0, 100⟩ Alg.HS256 "s")
    ⟨"u", "refresh", "j", 0, 100⟩ (by decide) (by decide)

/-- C1: once the parse, revocation and subject-existence checks have
passed, `RefreshToken` submits the old refresh token's id to the blacklist
strictly before generating the new pair (revoke event precedes the mint
event, and the minted result is threaded through the already-revoked cache
state); if the revocation write fails, it returns `CacheError`, performs
no mint event, consumes no fresh token ids, and returns no pair. -/
theorem refreshToken_revokes_before_minting
    (m : Manager) (ue : String → Bool) (r : Redis) (now ctr : Nat)
    (tok : Token) (c : Claims)
    (hparse : m.ParseToken now tok TokenTypeRefresh = .ok c)
    (hbl : m.IsTokenBlacklisted r now c.id = .ok false)
    (huser : ue c.userID = true) :
    (∀ r', m.RevokeRefreshToken r now c.id = .ok r' →
      RefreshToken m ue r now ctr tok
        = ⟨.ok (m.GenerateTokenPair now ctr c.userID).1, r',
            (m.GenerateTokenPair now ctr c.userID).2,
            [.revoke c.id, .mint c.userID]⟩) ∧
    (m.RevokeRefreshToken r now c.id = .error () →
      RefreshToken m ue r now ctr tok
        = ⟨.error .cacheError, r, ctr, [.revoke c.id]⟩) := by
  constructor
  · intro r' hrev
    simp [RefreshToken, hparse, hbl, huser, hrev]
  · intro hrev
    simp [RefreshToken, hparse, hbl, huser, hrev]

/-- C1 witness: the theorem applied at a concrete input on which the
revocation write succeeds. -/
theorem refreshToken_revokes_before_minting_witness :
    RefreshToken ⟨"s", 10, 100⟩ (fun _ => true) ⟨[], [], []⟩ 0 0
        (Token.signed ⟨"u", "refresh", "j", 0, 100⟩ Alg.HS256 "s")
      = ⟨.ok ((Manager.GenerateTokenPair ⟨"s", 10, 100⟩ 0 0 "u").1),
          ⟨[(Key.blacklist "j", Val.str "1", 100)], [], []⟩,
          (Manager.GenerateTokenPair ⟨"s", 10, 100⟩ 0 0 "u").2,
          [.revoke "j", .mint "u"]⟩ :=
  (refreshToken_revokes_before_minting ⟨"s", 10, 100⟩ (fun _ => true)
      ⟨[], [], []⟩ 0 0
      (Token.signed ⟨"u", "refresh", "j", 0, 100⟩ Alg.HS256 "s")
      ⟨"u", "refresh", "j", 0, 100⟩ (by decide) (by decide) (by decide)).1
    ⟨[(Key.blacklist "j", Val.str "1", 100)], [], []⟩ (by decide)

/-- C2: for a valid, unrevoked refresh token whose subject exists (and a
healthy cache with a positive refresh lifetime), calling `RefreshToken`
twice with the same token string succeeds the first time, returning a new
pair, and fails the second time with `TokenInvalid`, because the first
call blacklisted the token's id. -/
theorem refreshToken_twice_second_fails
    (m : Manager) (ue : String → Bool) (r : Redis) (now ctr : Nat) (c : Claims)
    (hkind : c.tokenType = TokenTypeRefresh)
    (hexp : now ≤ c.expiresAt)
    (hre : 0 < m.refreshExpire)
    (hunrev : r.lookup now (Key.blacklist c.id) = none)
    (hread : r.readOk (Key.blacklist c.id) = true)
    (hwrite : r.writeOk (Key.blacklist c.id) = true)
    (huser : ue c.userID = true) :
    (RefreshToken m ue r now ctr (Token.signed c Alg.HS256 m.secret)).result
        = .ok (m.GenerateTokenPair now ctr c.userID).1 ∧
    (RefreshToken m ue
        (RefreshToken m ue r now ctr (Token.signed c Alg.HS256 m.secret)).redis
        now
        (RefreshToken m ue r now ctr (Token.signed c Alg.HS256 m.secret)).uuidCtr
        (Token.signed c Alg.HS256 m.secret)).result
      = .error .tokenInvalid := by
  have hparse : m.ParseToken now (Token.signed c Alg.HS256 m.secret) TokenTypeRefresh
      = .ok c := by
    simp [Manager.ParseToken, hkind, Nat.not_lt.mpr hexp]
  have hbl1 : m.IsTokenBlacklisted r now c.id = .ok false := by
    simp [Manager.IsTokenBlacklisted, Redis.get, hread, hunrev]
  have hrev : m.RevokeRefreshToken r now c.id
      = .ok (r.rawSet (Key.blacklist c.id) (.str "1") (now + m.refreshExpire)) := by
    simp [Manager.RevokeRefreshToken, Manager.AddTokenToBlacklist, Redis.set, hwrite]
  have h1 : RefreshToken m ue r now ctr (Token.signed c Alg.HS256 m.secret)
      = ⟨.ok (m.GenerateTokenPair now ctr c.userID).1,
          r.rawSet (Key.blacklist c.id) (.str "1") (now + m.refreshExpire),
          (m.GenerateTokenPair now ctr c.userID).2,
          [.revoke c.id, .mint c.userID]⟩ := by
    simp [RefreshToken, hparse, hbl1, huser, hrev]
  rw [h1]
  refine ⟨rfl, ?_⟩
  have hbl2 : m.IsTokenBlacklisted
      (r.rawSet (Key.blacklist c.id) (.str "1") (now + m.refreshExpire)) now c.id
      = .ok true := by
    simp [Manager.IsTokenBlacklisted, Redis.get, hread, lookup_rawSet_self,
      Nat.lt_add_of_pos_right hre]
  simp [RefreshToken, hparse, hbl2]

/-- C2 witness: the theorem applied at a concrete input. -/
theorem refreshToken_twice_second_fails_witness :
    (RefreshToken ⟨"s", 10, 100⟩ (fun _ => true) ⟨[], [], []⟩ 0 0
        (Token.signed ⟨"u", "refresh", "j", 0, 100⟩ Alg.HS256 "s")).result
        = .ok ((Manager.GenerateTokenPair ⟨"s", 10, 100⟩ 0 0 "u").1) ∧
    (RefreshToken ⟨"s", 10, 100⟩ (fun _ => true)
        (RefreshToken ⟨"s", 10, 100⟩ (fun _ => true) ⟨[], [], []⟩ 0 0
          (Token.signed ⟨"u", "refresh", "j", 0, 100⟩ Alg.HS256 "s")).redis
        0
        (RefreshToken ⟨"s", 10, 100⟩ (fun _ => true) ⟨[], [], []⟩ 0 0
          (Token.signed ⟨"u", "refresh", "j", 0, 100⟩ Alg.HS256 "s")).uuidCtr
        (Token.signed ⟨"u", "refresh", "j", 0, 100⟩ Alg.HS256 "s")).result
      = .error .tokenInvalid :=
  refreshToken_twice_second_fails ⟨"s", 10, 100⟩ (fun _ => true) ⟨[], [], []⟩ 0 0
    ⟨"u", "refresh", "j", 0, 100⟩ (by decide) (by decide) (by decide)
    (by decide) (by decide) (by decide) (by decide)

/-- Auxiliary congruence: `GetVerifyFailCount` only depends on the cache
through the fail-counter key. -/
theorem getVerifyFailCount_congr (r r' : Redis) (now : Nat) (t p : String)
    (hro : r'.readOk (Key.verifyFail t p) = r.readOk (Key.verifyFail t p))
    (hlk : r'.lookup now (Key.verifyFail t p) = r.lookup now (Key.verifyFail t p)) :
    GetVerifyFailCount r' now t p = GetVerifyFailCount r now t p := by
  simp [GetVerifyFailCount, Redis.get, hro, hlk]

/-- C3 (amended): in the arch3 variant, below the failure lockout,
`Verify` returns the same `CodeInvalid` error value whether no stored code
exists (never issued or expired) or a stored code exists but differs from
the candidate — the two causes are indistinguishable from the returned
error. -/
theorem arch3_verify_uniform_code_invalid
    (r₁ r₂ : Redis) (now : Nat) (t p candidate stored : String) (n₁ n₂ : Nat)
    (hf₁ : GetVerifyFailCount r₁ now t p = .ok n₁) (hn₁ : n₁ < maxVerifyFails)
    (hf₂ : GetVerifyFailCount r₂ now t p = .ok n₂) (hn₂ : n₂ < maxVerifyFails)
    (hmiss : GetCode r₁ now t p = .error .codeInvalid)
    (hstored : GetCode r₂ now t p = .ok stored)
    (hne : stored ≠ candidate) :
    (Verify r₁ now t p candidate).1 = .error .codeInvalid ∧
    (Verify r₂ now t p candidate).1 = .error .codeInvalid ∧
    (Verify r₁ now t p candidate).1 = (Verify r₂ now t p candidate).1 := by
  have h1 : (Verify r₁ now t p candidate).1 = .error .codeInvalid := by
    simp [Verify, hf₁, Nat.not_le.mpr hn₁, hmiss]
  have h2 : (Verify r₂ now t p candidate).1 = .error .codeInvalid := by
    simp [Verify, hf₂, Nat.not_le.mpr hn₂, hstored, hne]
  exact ⟨h1, h2, h1.trans h2.symm⟩

/-- C3 witness: the amended theorem applied at a concrete input (empty
cache vs. a cache holding a different code). -/
theorem arch3_verify_uniform_code_invalid_witness :
    (Verify ⟨[], [], []⟩ 0 "login" "13800000000" "000000").1
        = .error .codeInvalid ∧
    (Verify ⟨[(Key.code "login" "13800000000", Val.str "111111", 300)], [], []⟩ 0
        "login" "13800000000" "000000").1 = .error .codeInvalid ∧
    (Verify ⟨[], [], []⟩ 0 "login" "13800000000" "000000").1
      = (Verify ⟨[(Key.code "login" "13800000000", Val.str "111111", 300)], [], []⟩ 0
          "login" "13800000000" "000000").1 :=
  arch3_verify_uniform_code_invalid ⟨[], [], []⟩
    ⟨[(Key.code "login" "13800000000", Val.str "111111", 300)], [], []⟩
    0 "login" "13800000000" "000000" "111111" 0 0
    (by decide) (by decide) (by decide) (by decide) (by decide) (by decide) (by decide)

/-- C3 counterexample: in the archv2 variant, `Verify` returns *distinct*
error values for "no stored code" (`codeMissing`) and "stored code differs
from the candidate" (`codeMismatch`), so an observer can distinguish the
two causes. -/
theorem v2_verify_error_distinguishes_missing_from_wrong :
    (V2.Verify ⟨[], [], []⟩ 0 "login" "13800000000" "000000").1
        = .error V2.Err.codeMissing ∧
    (V2.Verify ⟨[(V2.logicalKey "login" "13800000000", Val.str "111111", 300)], [], []⟩ 0
        "login" "13800000000" "000000").1 = .error V2.Err.codeMismatch ∧
    (V2.Verify ⟨[], [], []⟩ 0 "login" "13800000000" "000000").1
      ≠ (V2.Verify ⟨[(V2.logicalKey "login" "13800000000", Val.str "111111", 300)], [], []⟩ 0
          "login" "13800000000" "000000").1 := by
  decide

/-- C4 (amended): in the arch3 variant, when the stored-code write
succeeded but the delivery gateway call fails, `Send` deletes the
just-stored code and fails `SendFailed`; afterwards the stored code is
absent and a `Verify` with the would-be code fails `CodeInvalid`.  (In the
archv2 variant the code is not deleted and remains verifiable.) -/
theorem arch3_send_gateway_failure_deletes_code
    (env : SMSEnv) (r : Redis) (now : Nat) (t p tid : String) (n : Nat)
    (htmpl : env.templates t = some tid)
    (hlimit : checkSendLimit r now t p = .ok ())
    (hwcode : r.writeOk (Key.code t p) = true)
    (hrcode : r.readOk (Key.code t p) = true)
    (hgw : env.gatewayOk = false)
    (hf : GetVerifyFailCount r now t p = .ok n) (hn : n < maxVerifyFails) :
    (Send env r now t p).1 = .error .sendFailed ∧
    (Send env r now t p).2.lookup now (Key.code t p) = none ∧
    (Verify (Send env r now t p).2 now t p env.freshCode).1 = .error .codeInvalid := by
  have hstore : StoreCode r now t p env.freshCode codeTTL
      = .ok (r.rawSet (Key.code t p) (.str env.freshCode) (now + codeTTL)) := by
    simp [StoreCode, Redis.set, hwcode]
  have hdel : DeleteCode (r.rawSet (Key.code t p) (.str env.freshCode) (now + codeTTL)) t p
      = .ok ((r.rawSet (Key.code t p) (.str env.freshCode) (now + codeTTL)).rawDel
          (Key.code t p)) := by
    simp [DeleteCode, Redis.del, hwcode]
  have hsend : Send env r now t p
      = (.error .sendFailed,
         (r.rawSet (Key.code t p) (.str env.freshCode) (now + codeTTL)).rawDel
           (Key.code t p)) := by
    simp [Send, htmpl, hlimit, hstore, hgw, hdel]
  rw [hsend]
  have hlk : ((r.rawSet (Key.code t p) (.str env.freshCode) (now + codeTTL)).rawDel
      (Key.code t p)).lookup now (Key.code t p) = none := lookup_rawDel_self _ _ _
  refine ⟨rfl, hlk, ?_⟩
  have hcv : Key.code t p ≠ Key.verifyFail t p := fun hh => Key.noConfusion hh
  have hvc : Key.verifyFail t p ≠ Key.code t p := fun hh => Key.noConfusion hh
  have hfc : GetVerifyFailCount
      ((r.rawSet (Key.code t p) (.str env.freshCode) (now + codeTTL)).rawDel
        (Key.code t p)) now t p = .ok n := by
    have hcongr := getVerifyFailCount_congr r
      ((r.rawSet (Key.code t p) (.str env.freshCode) (now + codeTTL)).rawDel
        (Key.code t p)) now t p rfl
      (by rw [lookup_rawDel_ne _ _ hvc, lookup_rawSet_ne _ _ _ _ hvc])
    rw [hcongr]
    exact hf
  have hgc : GetCode
      ((r.rawSet (Key.code t p) (.str env.freshCode) (now + codeTTL)).rawDel
        (Key.code t p)) now t p = .error .codeInvalid := by
    simp [GetCode, Redis.get, hrcode, hlk]
  simp [Verify, hfc, Nat.not_le.mpr hn, hgc]

/-- C4 witness: the amended theorem applied at a concrete input. -/
theorem arch3_send_gateway_failure_deletes_code_witness :
    (Send ⟨fun _ => some "t1", false, "482913"⟩ ⟨[], [], []⟩ 0 "login" "13800000000").1
        = .error .sendFailed ∧
    (Send ⟨fun _ => some "t1", false, "482913"⟩ ⟨[], [], []⟩ 0
        "login" "13800000000").2.lookup 0 (Key.code "login" "13800000000") = none ∧
    (Verify (Send ⟨fun _ => some "t1", false, "482913"⟩ ⟨[], [], []⟩ 0
        "login" "13800000000").2 0 "login" "13800000000" "482913").1
      = .error .codeInvalid :=
  arch3_send_gateway_failure_deletes_code ⟨fun _ => some "t1", false, "482913"⟩
    ⟨[], [], []⟩ 0 "login" "13800000000" "t1" 0
    (by decide) (by decide) (by decide) (by decide) (by decide) (by decide) (by decide)

/-- C4 counterexample: in the archv2 variant, after a failed gateway call
`Send` fails but leaves the stored code in the cache, and a subsequent
`Verify` with that code succeeds. -/
theorem v2_send_failure_leaves_code_verifiable :
    (V2.Send (fun _ => some "t1") false "482913" ⟨[], [], []⟩ 0 "login" "13800000000").1
        = .error V2.Err.sendFailed ∧
    (V2.Send (fun _ => some "t1") false "482913" ⟨[], [], []⟩ 0
        "login" "13800000000").2.lookup 0 (V2.logicalKey "login" "13800000000")
      = some (Val.str "482913") ∧
    (V2.Verify (V2.Send (fun _ => some "t1") false "482913" ⟨[], [], []⟩ 0
        "login" "13800000000").2 0 "login" "13800000000" "482913").1 = .ok () := by
  decide

/-- Auxiliary: one wrong `Verify` attempt below the lockout returns
`CodeInvalid` and bumps the fail counter (TTL 1 hour), and re-establishes
the facts needed for the next attempt. -/
theorem verify_wrong_chain_step
    (r : Redis) (now : Nat) (t p code wrong : String) (k : Nat)
    (hro : r.readOk (Key.verifyFail t p) = true)
    (hwo : r.writeOk (Key.verifyFail t p) = true)
    (hroc : r.readOk (Key.code t p) = true)
    (hvf : Redis.intOf (r.lookup now (Key.verifyFail t p)) = .ok k)
    (hk : k < maxVerifyFails)
    (hcode : r.lookup now (Key.code t p) = some (Val.str code))
    (hcw : code ≠ wrong) :
    Verify r now t p wrong
      = (.error .codeInvalid,
         r.rawSet (Key.verifyFail t p) (Val.num (k + 1)) (now + verifyFailTTL)) ∧
    (r.rawSet (Key.verifyFail t p) (Val.num (k + 1)) (now + verifyFailTTL)).readOk
        (Key.verifyFail t p) = true ∧
    (r.rawSet (Key.verifyFail t p) (Val.num (k + 1)) (now + verifyFailTTL)).writeOk
        (Key.verifyFail t p) = true ∧
    (r.rawSet (Key.verifyFail t p) (Val.num (k + 1)) (now + verifyFailTTL)).readOk
        (Key.code t p) = true ∧
    Redis.intOf ((r.rawSet (Key.verifyFail t p) (Val.num (k + 1))
        (now + verifyFailTTL)).lookup now (Key.verifyFail t p)) = .ok (k + 1) ∧
    (r.rawSet (Key.verifyFail t p) (Val.num (k + 1)) (now + verifyFailTTL)).lookup now
        (Key.code t p) = some (Val.str code) := by
  have hfc : GetVerifyFailCount r now t p = .ok k := by
    simp [GetVerifyFailCount, Redis.get, hro, hvf]
  have hgc : GetCode r now t p = .ok code := by
    simp [GetCode, Redis.get, hroc, hcode]
  have hincr : IncrVerifyFailCount r now t p
      = .ok (r.rawSet (Key.verifyFail t p) (Val.num (k + 1)) (now + verifyFailTTL)) := by
    simp [IncrVerifyFailCount, Redis.incrExpire, hwo, hvf]
  have hltv : now < now + verifyFailTTL := by simp [verifyFailTTL]
  have hcv : Key.code t p ≠ Key.verifyFail t p := fun hh => Key.noConfusion hh
  refine ⟨?_, by rw [readOk_rawSet]; exact hro, by rw [writeOk_rawSet]; exact hwo,
    by rw [readOk_rawSet]; exact hroc, ?_, ?_⟩
  · simp [Verify, hfc, Nat.not_le.mpr hk, hgc, hcw, hincr]
  · rw [lookup_rawSet_self, if_pos hltv]
    rfl
  · rw [lookup_rawSet_ne _ _ _ _ hcv]
    exact hcode

/-- Auxiliary: while the fail counter is at least `maxVerifyFails`,
`Verify` fails `VerifyTooMany` for every candidate and leaves the cache
untouched — the stored code is never read. -/
theorem verify_lockout_state_unchanged
    (r : Redis) (now : Nat) (t p cand : String) (n : Nat)
    (hro : r.readOk (Key.verifyFail t p) = true)
    (hn : Redis.intOf (r.lookup now (Key.verifyFail t p)) = .ok n)
    (h5 : maxVerifyFails ≤ n) :
    Verify r now t p cand = (.error .verifyTooMany, r) := by
  have hfc : GetVerifyFailCount r now t p = .ok n := by
    simp [GetVerifyFailCount, Redis.get, hro, hn]
  simp [Verify, hfc, h5]

/-- Auxiliary: the shape of a fully successful `Send`: the fresh code is
stored (TTL 300 s), both send counters are incremented, and the fail
counter is deleted. -/
theorem send_success_shape
    (env : SMSEnv) (r : Redis) (now : Nat) (t p tid : String) (mc dc : Nat)
    (htmpl : env.templates t = some tid)
    (hgw : env.gatewayOk = true)
    (hromin : r.readOk (Key.minute t p) = true)
    (hroday : r.readOk (Key.day t p) = true)
    (hwcode : r.writeOk (Key.code t p) = true)
    (hwmin : r.writeOk (Key.minute t p) = true)
    (hwday : r.writeOk (Key.day t p) = true)
    (hwvf : r.writeOk (Key.verifyFail t p) = true)
    (hminv : Redis.intOf (r.lookup now (Key.minute t p)) = .ok mc)
    (hdayv : Redis.intOf (r.lookup now (Key.day t p)) = .ok dc)
    (hmc : mc < maxPerMin) (hdc : dc < maxPerDay) :
    Send env r now t p
      = (.ok (),
         ((((r.rawSet (Key.code t p) (Val.str env.freshCode) (now + codeTTL)).rawSet
             (Key.minute t p) (Val.num (mc + 1)) (now + 60)).rawSet
             (Key.day t p) (Val.num (dc + 1)) (now + 86400)).rawDel
             (Key.verifyFail t p))) := by
  have hmincode : Key.minute t p ≠ Key.code t p := fun hh => Key.noConfusion hh
  have hdaycode : Key.day t p ≠ Key.code t p := fun hh => Key.noConfusion hh
  have hdaymin : Key.day t p ≠ Key.minute t p := fun hh => Key.noConfusion hh
  have hlimit : checkSendLimit r now t p = .ok () := by
    simp [checkSendLimit, GetSendCount, Redis.get, hromin, hroday, hminv, hdayv,
      Nat.not_le.mpr hmc, Nat.not_le.mpr hdc]
  have hstore : StoreCode r now t p env.freshCode codeTTL
      = .ok (r.rawSet (Key.code t p) (Val.str env.freshCode) (now + codeTTL)) := by
    simp [StoreCode, Redis.set, hwcode]
  have hminv₁ : Redis.intOf ((r.rawSet (Key.code t p) (Val.str env.freshCode)
      (now + codeTTL)).lookup now (Key.minute t p)) = .ok mc := by
    rw [lookup_rawSet_ne _ _ _ _ hmincode]
    exact hminv
  have hdayv₂ : Redis.intOf (((r.rawSet (Key.code t p) (Val.str env.freshCode)
      (now + codeTTL)).rawSet (Key.minute t p) (Val.num (mc + 1))
      (now + 60)).lookup now (Key.day t p)) = .ok dc := by
    rw [lookup_rawSet_ne _ _ _ _ hdaymin, lookup_rawSet_ne _ _ _ _ hdaycode]
    exact hdayv
  have hincr : IncrSendCount
      (r.rawSet (Key.code t p) (Val.str env.freshCode) (now + codeTTL)) now t p
      = .ok (((r.rawSet (Key.code t p) (Val.str env.freshCode) (now + codeTTL)).rawSet
          (Key.minute t p) (Val.num (mc + 1)) (now + 60)).rawSet
          (Key.day t p) (Val.num (dc + 1)) (now + 86400)) := by
    simp [IncrSendCount, Redis.incrExpire, hwmin, hwday, hminv₁, hdayv₂]
  have hreset : ResetVerifyFailCount
      (((r.rawSet (Key.code t p) (Val.str env.freshCode) (now + codeTTL)).rawSet
        (Key.minute t p) (Val.num (mc + 1)) (now + 60)).rawSet
        (Key.day t p) (Val.num (dc + 1)) (now + 86400)) t p
      = .ok ((((r.rawSet (Key.code t p) (Val.str env.freshCode)
          (now + codeTTL)).rawSet (Key.minute t p) (Val.num (mc + 1))
          (now + 60)).rawSet (Key.day t p) (Val.num (dc + 1))
          (now + 86400)).rawDel (Key.verifyFail t p)) := by
    simp [ResetVerifyFailCount, Redis.del, hwvf]
  simp [Send, htmpl, hlimit, hstore, hgw, hincr, hreset]

/-- C5: (general part) while the fail counter holds at least 5, `Verify`
fails `VerifyTooMany` for every candidate — even one equal to the
still-valid stored code — leaving the cache untouched; (scenario part)
starting from a freshly stored code, five consecutive wrong `Verify`
attempts each fail `CodeInvalid` and raise the counter to 5, the sixth
attempt with the *correct* code fails `VerifyTooMany`, and a subsequent
successful `Send` resets the counter to 0 and clears the lockout (the
newly sent code verifies). -/
theorem verify_lockout_and_send_clears
    (rL : Redis) (nowL : Nat) (tL pL candL : String) (nF : Nat)
    (hroL : rL.readOk (Key.verifyFail tL pL) = true)
    (hnL : Redis.intOf (rL.lookup nowL (Key.verifyFail tL pL)) = .ok nF)
    (h5L : maxVerifyFails ≤ nF)
    (t p code wrong fresh tid : String) (now : Nat)
    (hcw : code ≠ wrong) :
    Verify rL nowL tL pL candL = (.error .verifyTooMany, rL) ∧
    (let s0 : Redis := ⟨[(Key.code t p, Val.str code, now + codeTTL)], [], []⟩
     let env : SMSEnv := ⟨fun _ => some tid, true, fresh⟩
     let s1 := s0.rawSet (Key.verifyFail t p) (Val.num 1) (now + verifyFailTTL)
     let s2 := s1.rawSet (Key.verifyFail t p) (Val.num 2) (now + verifyFailTTL)
     let s3 := s2.rawSet (Key.verifyFail t p) (Val.num 3) (now + verifyFailTTL)
     let s4 := s3.rawSet (Key.verifyFail t p) (Val.num 4) (now + verifyFailTTL)
     let s5 := s4.rawSet (Key.verifyFail t p) (Val.num 5) (now + verifyFailTTL)
     let sSend := (((s5.rawSet (Key.code t p) (Val.str fresh) (now + codeTTL)).rawSet
         (Key.minute t p) (Val.num 1) (now + 60)).rawSet
         (Key.day t p) (Val.num 1) (now + 86400)).rawDel (Key.verifyFail t p)
     Verify s0 now t p wrong = (.error .codeInvalid, s1) ∧
     Verify s1 now t p wrong = (.error .codeInvalid, s2) ∧
     Verify s2 now t p wrong = (.error .codeInvalid, s3) ∧
     Verify s3 now t p wrong = (.error .codeInvalid, s4) ∧
     Verify s4 now t p wrong = (.error .codeInvalid, s5) ∧
     GetVerifyFailCount s5 now t p = .ok 5 ∧
     Verify s5 now t p code = (.error .verifyTooMany, s5) ∧
     Send env s5 now t p = (.ok (), sSend) ∧
     GetVerifyFailCount sSend now t p = .ok 0 ∧
     (Verify sSend now t p fresh).1 = .ok ()) := by
  refine ⟨verify_lockout_state_unchanged rL nowL tL pL candL nF hroL hnL h5L, ?_⟩
  have hcv : Key.code t p ≠ Key.verifyFail t p := fun hh => Key.noConfusion hh
  have hmv : Key.minute t p ≠ Key.verifyFail t p := fun hh => Key.noConfusion hh
  have hdv : Key.day t p ≠ Key.verifyFail t p := fun hh => Key.noConfusion hh
  have hvc : Key.verifyFail t p ≠ Key.code t p := fun hh => Key.noConfusion hh
  have hbeqcv : (Key.code t p == Key.verifyFail t p) = false :=
    beq_eq_false_iff_ne.mpr hcv
  have hbeqcm : (Key.code t p == Key.minute t p) = false :=
    beq_eq_false_iff_ne.mpr (fun hh => Key.noConfusion hh)
  have hbeqcd : (Key.code t p == Key.day t p) = false :=
    beq_eq_false_iff_ne.mpr (fun hh => Key.noConfusion hh)
  have hlt : now < now + codeTTL := by simp [codeTTL]
  have hc0 : (⟨[(Key.code t p, Val.str code, now + codeTTL)], [], []⟩ : Redis).lookup
      now (Key.code t p) = some (Val.str code) := by
    simp [Redis.lookup, Redis.findEntry, List.find?_cons, hlt]
  have hvf0 : (⟨[(Key.code t p, Val.str code, now + codeTTL)], [], []⟩ : Redis).lookup
      now (Key.verifyFail t p) = none := by
    simp [Redis.lookup, Redis.findEntry, List.find?_cons, hbeqcv]
  have hmin0 : (⟨[(Key.code t p, Val.str code, now + codeTTL)], [], []⟩ : Redis).lookup
      now (Key.minute t p) = none := by
    simp [Redis.lookup, Redis.findEntry, List.find?_cons, hbeqcm]
  have hday0 : (⟨[(Key.code t p, Val.str code, now + codeTTL)], [], []⟩ : Redis).lookup
      now (Key.day t p) = none := by
    simp [Redis.lookup, Redis.findEntry, List.find?_cons, hbeqcd]
  obtain ⟨E1, ro1, wo1, rc1, vf1, co1⟩ := verify_wrong_chain_step
    ⟨[(Key.code t p, Val.str code, now + codeTTL)], [], []⟩ now t p code wrong 0
    rfl rfl rfl (by rw [hvf0]; rfl) (by decide) hc0 hcw
  obtain ⟨E2, ro2, wo2, rc2, vf2, co2⟩ := verify_wrong_chain_step
    _ now t p code wrong 1 ro1 wo1 rc1 vf1 (by decide) co1 hcw
  obtain ⟨E3, ro3, wo3, rc3, vf3, co3⟩ := verify_wrong_chain_step
    _ now t p code wrong 2 ro2 wo2 rc2 vf2 (by decide) co2 hcw
  obtain ⟨E4, ro4, wo4, rc4, vf4, co4⟩ := verify_wrong_chain_step
    _ now t p code wrong 3 ro3 wo3 rc3 vf3 (by decide) co3 hcw
  obtain ⟨E5, ro5, wo5, rc5, vf5, co5⟩ := verify_wrong_chain_step
    _ now t p code wrong 4 ro4 wo4 rc4 vf4 (by decide) co4 hcw
  have hfc5 : GetVerifyFailCount ((((((⟨[(Key.code t p, Val.str code, now + codeTTL)],
      [], []⟩ : Redis).rawSet (Key.verifyFail t p) (Val.num 1)
      (now + verifyFailTTL)).rawSet (Key.verifyFail t p) (Val.num 2)
      (now + verifyFailTTL)).rawSet (Key.verifyFail t p) (Val.num 3)
      (now + verifyFailTTL)).rawSet (Key.verifyFail t p) (Val.num 4)
      (now + verifyFailTTL)).rawSet (Key.verifyFail t p) (Val.num 5)
      (now + verifyFailTTL)) now t p = .ok 5 := by
    simp [GetVerifyFailCount, Redis.get, ro5, vf5]
  have E6 := verify_lockout_state_unchanged _ now t p code 5 ro5 vf5 (by decide)
  have hmin5 : ((((((⟨[(Key.code t p, Val.str code, now + codeTTL)], [], []⟩ :
      Redis).rawSet (Key.verifyFail t p) (Val.num 1) (now + verifyFailTTL)).rawSet
      (Key.verifyFail t p) (Val.num 2) (now + verifyFailTTL)).rawSet
      (Key.verifyFail t p) (Val.num 3) (now + verifyFailTTL)).rawSet
      (Key.verifyFail t p) (Val.num 4) (now + verifyFailTTL)).rawSet
      (Key.verifyFail t p) (Val.num 5) (now + verifyFailTTL)).lookup now
      (Key.minute t p) = none := by
    rw [lookup_rawSet_ne _ _ _ _ hmv, lookup_rawSet_ne _ _ _ _ hmv,
      lookup_rawSet_ne _ _ _ _ hmv, lookup_rawSet_ne _ _ _ _ hmv,
      lookup_rawSet_ne _ _ _ _ hmv]
    exact hmin0
  have hday5 : ((((((⟨[(Key.code t p, Val.str code, now + codeTTL)], [], []⟩ :
      Redis).rawSet (Key.verifyFail t p) (Val.num 1) (now + verifyFailTTL)).rawSet
      (Key.verifyFail t p) (Val.num 2) (now + verifyFailTTL)).rawSet
      (Key.verifyFail t p) (Val.num 3) (now + verifyFailTTL)).rawSet
      (Key.verifyFail t p) (Val.num 4) (now + verifyFailTTL)).rawSet
      (Key.verifyFail t p) (Val.num 5) (now + verifyFailTTL)).lookup now
      (Key.day t p) = none := by
    rw [lookup_rawSet_ne _ _ _ _ hdv, lookup_rawSet_ne _ _ _ _ hdv,
      lookup_rawSet_ne _ _ _ _ hdv, lookup_rawSet_ne _ _ _ _ hdv,
      lookup_rawSet_ne _ _ _ _ hdv]
    exact hday0
  have ES := send_success_shape ⟨fun _ => some tid, true, fresh⟩
    ((((((⟨[(Key.code t p, Val.str code, now + codeTTL)], [], []⟩ :
      Redis).rawSet (Key.verifyFail t p) (Val.num 1) (now + verifyFailTTL)).rawSet
      (Key.verifyFail t p) (Val.num 2) (now + verifyFailTTL)).rawSet
      (Key.verifyFail t p) (Val.num 3) (now + verifyFailTTL)).rawSet
      (Key.verifyFail t p) (Val.num 4) (now + verifyFailTTL)).rawSet
      (Key.verifyFail t p) (Val.num 5) (now + verifyFailTTL)) now t p tid 0 0
    rfl rfl rfl rfl rfl rfl rfl wo5
    (by rw [hmin5]; rfl) (by rw [hday5]; rfl) (by decide) (by decide)
  have hfcS : GetVerifyFailCount
      ((⟨[(Key.code t p, Val.str code, now + codeTTL)], [], []⟩ : Redis)
        |>.rawSet (Key.verifyFail t p) (Val.num 1) (now + verifyFailTTL)
        |>.rawSet (Key.verifyFail t p) (Val.num 2) (now + verifyFailTTL)
        |>.rawSet (Key.verifyFail t p) (Val.num 3) (now + verifyFailTTL)
        |>.rawSet (Key.verifyFail t p) (Val.num 4) (now + verifyFailTTL)
        |>.rawSet (Key.verifyFail t p) (Val.num 5) (now + verifyFailTTL)
        |>.rawSet (Key.code t p) (Val.str fresh) (now + codeTTL)
        |>.rawSet (Key.minute t p) (Val.num 1) (now + 60)
        |>.rawSet (Key.day t p) (Val.num 1) (now + 86400)
        |>.rawDel (Key.verifyFail t p)) now t p = .ok 0 := by
    have hdel := lookup_rawDel_self
      ((⟨[(Key.code t p, Val.str code, now + codeTTL)], [], []⟩ : Redis)
        |>.rawSet (Key.verifyFail t p) (Val.num 1) (now + verifyFailTTL)
        |>.rawSet (Key.verifyFail t p) (Val.num 2) (now + verifyFailTTL)
        |>.rawSet (Key.verifyFail t p) (Val.num 3) (now + verifyFailTTL)
        |>.rawSet (Key.verifyFail t p) (Val.num 4) (now + verifyFailTTL)
        |>.rawSet (Key.verifyFail t p) (Val.num 5) (now + verifyFailTTL)
        |>.rawSet (Key.code t p) (Val.str fresh) (now + codeTTL)
        |>.rawSet (Key.minute t p) (Val.num 1) (now + 60)
        |>.rawSet (Key.day t p) (Val.num 1) (now + 86400)) now (Key.verifyFail t p)
    simp [GetVerifyFailCount, Redis.get, hdel]
    rfl
  have hcodeS :
      ((⟨[(Key.code t p, Val.str code, now + codeTTL)], [], []⟩ : Redis)
        |>.rawSet (Key.verifyFail t p) (Val.num 1) (now + verifyFailTTL)
        |>.rawSet (Key.verifyFail t p) (Val.num 2) (now + verifyFailTTL)
        |>.rawSet (Key.verifyFail t p) (Val.num 3) (now + verifyFailTTL)
        |>.rawSet (Key.verifyFail t p) (Val.num 4) (now + verifyFailTTL)
        |>.rawSet (Key.verifyFail t p) (Val.num 5) (now + verifyFailTTL)
        |>.rawSet (Key.code t p) (Val.str fresh) (now + codeTTL)
        |>.rawSet (Key.minute t p) (Val.num 1) (now + 60)
        |>.rawSet (Key.day t p) (Val.num 1) (now + 86400)
        |>.rawDel (Key.verifyFail t p)).lookup now (Key.code t p)
      = some (Val.str fresh) := by
    rw [lookup_rawDel_ne _ _ hcv,
      lookup_rawSet_ne _ _ _ _ (fun hh => Key.noConfusion hh : Key.code t p ≠ Key.day t p),
      lookup_rawSet_ne _ _ _ _ (fun hh => Key.noConfusion hh : Key.code t p ≠ Key.minute t p),
      lookup_rawSet_self, if_pos hlt]
  have EV : (Verify
      ((⟨[(Key.code t p, Val.str code, now + codeTTL)], [], []⟩ : Redis)
        |>.rawSet (Key.verifyFail t p) (Val.num 1) (now + verifyFailTTL)
        |>.rawSet (Key.verifyFail t p) (Val.num 2) (now + verifyFailTTL)
        |>.rawSet (Key.verifyFail t p) (Val.num 3) (now + verifyFailTTL)
        |>.rawSet (Key.verifyFail t p) (Val.num 4) (now + verifyFailTTL)
        |>.rawSet (Key.verifyFail t p) (Val.num 5) (now + verifyFailTTL)
        |>.rawSet (Key.code t p) (Val.str fresh) (now + codeTTL)
        |>.rawSet (Key.minute t p) (Val.num 1) (now + 60)
        |>.rawSet (Key.day t p) (Val.num 1) (now + 86400)
        |>.rawDel (Key.verifyFail t p)) now t p fresh).1 = .ok () := by
    have hgc : GetCode
        ((⟨[(Key.code t p, Val.str code, now + codeTTL)], [], []⟩ : Redis)
          |>.rawSet (Key.verifyFail t p) (Val.num 1) (now + verifyFailTTL)
          |>.rawSet (Key.verifyFail t p) (Val.num 2) (now + verifyFailTTL)
          |>.rawSet (Key.verifyFail t p) (Val.num 3) (now + verifyFailTTL)
          |>.rawSet (Key.verifyFail t p) (Val.num 4) (now + verifyFailTTL)
          |>.rawSet (Key.verifyFail t p) (Val.num 5) (now + verifyFailTTL)
          |>.rawSet (Key.code t p) (Val.str fresh) (now + codeTTL)
          |>.rawSet (Key.minute t p) (Val.num 1) (now + 60)
          |>.rawSet (Key.day t p) (Val.num 1) (now + 86400)
          |>.rawDel (Key.verifyFail t p)) now t p = .ok fresh := by
      simp [GetCode, Redis.get, hcodeS]
      rfl
    simp [Verify, hfcS, hgc, maxVerifyFails]
  exact ⟨E1, E2, E3, E4, E5, hfc5, E6, ES, hfcS, EV⟩

/-- C5 witness: the theorem applied at a concrete input — a locked-out
state (fail counter 5) rejects even the correct stored code. -/
theorem verify_lockout_and_send_clears_witness :
    Verify ⟨[(Key.verifyFail "login" "13800000000", Val.num 5, 3600)], [], []⟩ 0
        "login" "13800000000" "482913"
      = (.error .verifyTooMany,
         ⟨[(Key.verifyFail "login" "13800000000", Val.num 5, 3600)], [], []⟩) :=
  (verify_lockout_and_send_clears
    ⟨[(Key.verifyFail "login" "13800000000", Val.num 5, 3600)], [], []⟩ 0
    "login" "13800000000" "482913" 5 (by decide) (by decide) (by decide)
    "login" "13800000000" "482913" "000000" "123456" "t1" 0 (by decide)).1

end Arch
